import Mathlib

/-!
Shallow embedding of `ns_api/ns_api.py` (a Python 2 client library for the
Dutch railways XML API).  The decoded XML tree produced by `xmltodict.parse`
is modelled by the inductive type `Node`; Python exceptions are modelled by
the `PyError` type and fallible code returns `Except PyError _`.  Each
constructor `X.__init__` of the source becomes `X.init : Node → Except
PyError X`, translated statement by statement, including the source's
`try`/`except` clauses and its known slips (reassigned variables, missing
`return` statements, uncaught exception kinds).
-/

set_option maxRecDepth 4096

/-- Python exception kinds raised by the code paths modelled here.
`expatError` stands for the parse failure of `xmltodict.parse` on
malformed XML (a decode error, distinct from every lookup error). -/
inductive PyError where
  | keyError (key : String)
  | typeError (msg : String)
  | attributeError (msg : String)
  | valueError (msg : String)
  | expatError
deriving DecidableEq, Repr

/-- Decoded XML tree as produced by `xmltodict.parse`: an element with
children becomes an ordered dictionary, repeated siblings become a list,
text becomes a string, and an empty element becomes `None`. -/
inductive Node where
  | str (s : String)
  | dict (fields : List (String × Node))
  | list (items : List Node)
  | null
deriving Repr

/-- Python subscript `node[key]`: a dictionary lookup raises `KeyError`
when the key is absent; subscripting `None`, a string or a list with a
string key raises `TypeError` (Python 2 semantics). -/
def Node.getItem : Node → String → Except PyError Node
  | .dict fields, key =>
    match fields.lookup key with
    | some v => .ok v
    | none => .error (.keyError key)
  | .null, _ => .error (.typeError "NoneType object is not subscriptable")
  | .str _, _ => .error (.typeError "string indices must be integers")
  | .list _, _ => .error (.typeError "list indices must be integers")

/-- Python iteration `for x in node`: a list yields its items, a
dictionary yields its keys, a string yields its characters (each as a
one-character string), and iterating `None` raises `TypeError`. -/
def Node.pyIter : Node → Except PyError (List Node)
  | .list items => .ok items
  | .dict fields => .ok (fields.map (fun kv => Node.str kv.1))
  | .str s => .ok (s.data.map (fun c => Node.str (String.mk [c])))
  | .null => .error (.typeError "NoneType object is not iterable")

/-- Python equality `node == s` against a string literal: true exactly
when the node is that string (any non-string node compares unequal). -/
def Node.eqStr : Node → String → Bool
  | .str s, t => s = t
  | _, _ => false

/-- Timezone-aware (or naive, when `tzinfo = none`) datetime value; the
attached timezone is a fixed offset in minutes, as built by `OffsetTime`. -/
structure PyDateTime where
  year : Nat
  month : Nat
  day : Nat
  hour : Nat
  minute : Nat
  second : Nat
  tzinfo : Option Int
deriving DecidableEq, Repr

/-- Python `int(s)` on a decimal literal with an optional sign;
`none` models the `ValueError` raised on any other string. -/
def parseIntPy (s : String) : Option Int :=
  let digitsToNat : List Char → Option Nat := fun cs =>
    if cs = [] ∨ ¬ cs.all Char.isDigit then none
    else some (cs.foldl (fun acc c => acc * 10 + (c.toNat - 48)) 0)
  match s.data with
  | '+' :: rest => (digitsToNat rest).map Int.ofNat
  | '-' :: rest => (digitsToNat rest).map (fun n => -(Int.ofNat n))
  | cs => (digitsToNat cs).map Int.ofNat

/-- Python string slice `s[:n]` (kept as character-list operations so
that concrete instances reduce inside the kernel). -/
def pySliceTo (s : String) (n : Nat) : String := String.mk (s.data.take n)

/-- Python string slice `s[n:]`. -/
def pySliceFrom (s : String) (n : Nat) : String := String.mk (s.data.drop n)

/-- Translation of the `OffsetTime` class: from an offset string such as
`+0530` it computes `hours = int(offset[:3])`, `minutes = int(offset[0] +
offset[3:])` and stores `timedelta(hours=hours, minutes=minutes)`, here
represented as the total offset in minutes.  `none` models the
`ValueError` raised by `int` on a malformed offset. -/
def OffsetTime.utcoffset (offset : String) : Option Int := do
  let hours ← parseIntPy (pySliceTo offset 3)
  let minutes ← parseIntPy (pySliceTo offset 1 ++ pySliceFrom offset 3)
  pure (hours * 60 + minutes)

/-- Days in a month of the proleptic Gregorian calendar, used by
`datetime.strptime` to validate the day component. -/
def daysInMonth (year month : Nat) : Nat :=
  if month = 2 then
    if year % 4 = 0 ∧ (year % 100 ≠ 0 ∨ year % 400 = 0) then 29 else 28
  else if month = 4 ∨ month = 6 ∨ month = 9 ∨ month = 11 then 30
  else 31

/-- Models `datetime.strptime(value, "%Y-%m-%dT%H:%M:%S")`, the only base
format reachable in this repository (it is the repository's fixed
timestamp format with the `%z` suffix stripped by `load_datetime`).
The result is a naive datetime; `none` models the `ValueError` raised
when the string does not match the pattern or a component is out of
range. -/
def strptime_ymdhms (value : String) : Option PyDateTime :=
  let d : Char → Option Nat := fun c => if c.isDigit then some (c.toNat - 48) else none
  match value.data with
  | [y1, y2, y3, y4, '-', m1, m2, '-', d1, d2, 'T', h1, h2, ':', n1, n2, ':', s1, s2] => do
    let y ← do
      let a ← d y1; let b ← d y2; let c ← d y3; let e ← d y4
      pure (a * 1000 + b * 100 + c * 10 + e)
    let mo ← do let a ← d m1; let b ← d m2; pure (a * 10 + b)
    let da ← do let a ← d d1; let b ← d d2; pure (a * 10 + b)
    let h ← do let a ← d h1; let b ← d h2; pure (a * 10 + b)
    let mi ← do let a ← d n1; let b ← d n2; pure (a * 10 + b)
    let se ← do let a ← d s1; let b ← d s2; pure (a * 10 + b)
    if 1 ≤ mo ∧ mo ≤ 12 ∧ 1 ≤ da ∧ da ≤ daysInMonth y mo ∧ h ≤ 23 ∧ mi ≤ 59 ∧ se ≤ 59 then
      pure ⟨y, mo, da, h, mi, se, none⟩
    else none
  | _ => none

/-- Models `datetime.strptime(value, fmt)` for the base formats used in
this repository; other formats are outside the modelled fragment. -/
def strptime (value : String) (fmt : String) : Option PyDateTime :=
  if fmt = "%Y-%m-%dT%H:%M:%S" then strptime_ymdhms value else none

/-- Translation of `load_datetime(value, dt_format)`: when the format ends
in `%z`, split the trailing five characters off as the offset, parse the
remainder with the stripped format, and attach the `OffsetTime` built
from the offset (Python slicing `value[-5:]` / `value[:-5]` is mirrored,
including its behaviour on short strings).  `none` models the
`ValueError` raised by `strptime` or by `OffsetTime`'s `int` calls. -/
def load_datetime (value : String) (dt_format : String) : Option PyDateTime :=
  if dt_format.data.reverse.take 2 = ['z', '%'] then
    let fmt := pySliceTo dt_format (dt_format.data.length - 2)
    let offset := pySliceFrom value (value.data.length - 5)
    let base := pySliceTo value (value.data.length - 5)
    match OffsetTime.utcoffset offset, strptime base fmt with
    | some off, some dt => some { dt with tzinfo := some off }
    | _, _ => none
  else strptime value dt_format

/-- Left-pads a numeral to two digits, as `strftime` does. -/
def pad2 (n : Nat) : String :=
  if n < 10 then "0" ++ toString n else toString n

/-- Left-pads a year to four digits, as `strftime`'s `%Y` does for the
years occurring here. -/
def pad4 (n : Nat) : String :=
  if n < 10 then "000" ++ toString n
  else if n < 100 then "00" ++ toString n
  else if n < 1000 then "0" ++ toString n
  else toString n

/-- Formats a fixed offset in minutes as `strftime`'s `%z` does:
sign, two-digit hours, two-digit minutes. -/
def formatOffset (off : Int) : String :=
  let sign := if off < 0 then "-" else "+"
  let a := off.natAbs
  sign ++ pad2 (a / 60) ++ pad2 (a % 60)

/-- Translation of `dump_datetime(value, dt_format)` = `value.strftime(dt_format)`,
modelled for the one format used in this repository; `%z` renders the
attached offset (empty for a naive datetime, as in Python). -/
def dump_datetime (value : PyDateTime) (dt_format : String) : Option String :=
  if dt_format = "%Y-%m-%dT%H:%M:%S%z" then
    some (pad4 value.year ++ "-" ++ pad2 value.month ++ "-" ++ pad2 value.day ++ "T" ++
      pad2 value.hour ++ ":" ++ pad2 value.minute ++ ":" ++ pad2 value.second ++
      (match value.tzinfo with
       | some off => formatOffset off
       | none => ""))
  else none

/-! ## JSON projection machinery (`json.dumps` over the modelled values) -/

/-- JSON value tree, the image of `json.dumps`'s argument. -/
inductive JVal where
  | jnull
  | jbool (b : Bool)
  | jnum (n : Int)
  | jstr (s : String)
  | jarr (items : List JVal)
  | jobj (fields : List (String × JVal))
deriving Repr

/-- JSON string escaping as performed by `json.dumps` (quote and
backslash; the strings arising here contain no control characters). -/
def jstrQuote (s : String) : String :=
  "\"" ++ String.join (s.data.map (fun c =>
    if c = '"' then "\\\"" else if c = '\\' then "\\\\" else String.mk [c])) ++ "\""

mutual

/-- Rendering of a JSON value with `json.dumps`'s default separators. -/
def renderJVal : JVal → String
  | .jnull => "null"
  | .jbool true => "true"
  | .jbool false => "false"
  | .jnum n => toString n
  | .jstr s => jstrQuote s
  | .jarr items => "[" ++ renderJList items ++ "]"
  | .jobj fields => "\x7b" ++ renderJObj fields ++ "\x7d"

/-- Renders the comma-separated items of a JSON array. -/
def renderJList : List JVal → String
  | [] => ""
  | [v] => renderJVal v
  | v :: vs => renderJVal v ++ ", " ++ renderJList vs

/-- Renders the comma-separated key-value pairs of a JSON object. -/
def renderJObj : List (String × JVal) → String
  | [] => ""
  | [kv] => jstrQuote kv.1 ++ ": " ++ renderJVal kv.2
  | kv :: kvs => jstrQuote kv.1 ++ ": " ++ renderJVal kv.2 ++ ", " ++ renderJObj kvs

end

mutual

/-- JSON image of a decoded XML node under `json.dumps` (dictionaries
become objects, lists arrays, strings strings, `None` null). -/
def nodeToJVal : Node → JVal
  | .str s => .jstr s
  | .null => .jnull
  | .list items => .jarr (nodeListToJVal items)
  | .dict fields => .jobj (nodeFieldsToJVal fields)

/-- JSON images of a list of nodes. -/
def nodeListToJVal : List Node → List JVal
  | [] => []
  | n :: ns => nodeToJVal n :: nodeListToJVal ns

/-- JSON images of the fields of a dictionary node. -/
def nodeFieldsToJVal : List (String × Node) → List (String × JVal)
  | [] => []
  | (k, v) :: fs => (k, nodeToJVal v) :: nodeFieldsToJVal fs

end

/-- JSON image of an optional node (`None` serializes as null). -/
def optNodeToJVal : Option Node → JVal
  | some n => nodeToJVal n
  | none => .jnull

/-- Python `value.isoformat()` on an aware datetime: ISO-8601 with the
offset rendered as `±HH:MM` (naive datetimes render without a suffix). -/
def PyDateTime.isoformat (dt : PyDateTime) : String :=
  pad4 dt.year ++ "-" ++ pad2 dt.month ++ "-" ++ pad2 dt.day ++ "T" ++
  pad2 dt.hour ++ ":" ++ pad2 dt.minute ++ ":" ++ pad2 dt.second ++
  (match dt.tzinfo with
   | some off =>
     (if off < 0 then "-" else "+") ++ pad2 (off.natAbs / 60) ++ ":" ++ pad2 (off.natAbs % 60)
   | none => "")

/-! ## Record model -/

/-- Value domain of the `Departure` attributes assigned on source lines
132-143: the chained assignments `self.x = departure_dict = ['...']`
store a Python list of strings there, so the attribute value is either a
decoded node or such a list literal. -/
inductive PyVal where
  | ofNode (n : Node)
  | ofList (items : List String)
deriving Repr

/-- Translation of the `Station` record (attribute `names` is the
dictionary literal built from the `Namen` child, in source order). -/
structure Station where
  code : Node
  uic_code : Node
  stationtype : Node
  names : List (String × Node)
  country : Node
  lat : Node
  lon : Node
  synonyms : List Node

/-- Translation of the synonym block of `Station.__init__` (source lines
95-103): the lookups `stat_dict['Synoniemen']['Synoniem']` run inside a
`try` whose only handler is `except TypeError` (which yields the empty
list), a unicode result is wrapped into a one-element list, and the
wrapped value is iterated; a `KeyError` (absent key) is NOT caught and
propagates. -/
def stationSynonyms (stat_dict : Node) : Except PyError (List Node) :=
  match (do
    let syn ← stat_dict.getItem "Synoniemen"
    let raw_synonyms ← syn.getItem "Synoniem"
    let raw_synonyms := match raw_synonyms with
      | .str s => Node.list [.str s]
      | other => other
    raw_synonyms.pyIter : Except PyError (List Node)) with
  | .ok syns => .ok syns
  | .error (.typeError _) => .ok []
  | .error e => .error e

/-- Translation of `Station.__init__`, field lookups in source order. -/
def Station.init (stat_dict : Node) : Except PyError Station := do
  let code ← stat_dict.getItem "Code"
  let uic_code ← stat_dict.getItem "UICCode"
  let stationtype ← stat_dict.getItem "Type"
  let namen ← stat_dict.getItem "Namen"
  let kort ← namen.getItem "Kort"
  let middel ← namen.getItem "Middel"
  let lang ← namen.getItem "Lang"
  let country ← stat_dict.getItem "Land"
  let lat ← stat_dict.getItem "Lat"
  let lon ← stat_dict.getItem "Lon"
  let synonyms ← stationSynonyms stat_dict
  pure { code, uic_code, stationtype,
         names := [("short", kort), ("middle", middel), ("long", lang)],
         country, lat, lon, synonyms }

/-- Translation of the `Departure` record.  `departure_delay` and
`departure_delay_text` are `none` when the corresponding attribute was
never assigned (the `try` block aborted before reaching it). -/
structure Departure where
  trip_number : Node
  departure_time : Node
  has_delay : Bool
  departure_delay : Option Node
  departure_delay_text : Option Node
  departure_platform : Node
  departure_platform_changed : Node
  destination : Node
  route_text : Option Node
  train_type : PyVal
  carrier : PyVal
  journey_tip : PyVal
  remarks : PyVal

/-- Source idiom `try: x = d[key]  except KeyError: x = None`: an absent
key yields `None`, any other lookup failure propagates. -/
def getOptKey (d : Node) (key : String) : Except PyError (Option Node) :=
  match d.getItem key with
  | .ok v => .ok (some v)
  | .error (.keyError _) => .ok none
  | .error e => .error e

/-- Translation of the delay block of `Departure.__init__` (source lines
117-122): `has_delay` is first set to `True`, then `VertrekVertraging`
and `VertrekVertragingTekst` are looked up in that order inside one
`try`; on a `KeyError` from EITHER lookup the handler resets
`has_delay` to `False`, keeping whatever attribute assignments already
happened (so a present `VertrekVertraging` with an absent
`VertrekVertragingTekst` leaves the delay stored but the flag false).
The result triple is (`has_delay`, `departure_delay`,
`departure_delay_text`). -/
def departureDelayFields (departure_dict : Node) :
    Except PyError (Bool × Option Node × Option Node) :=
  match departure_dict.getItem "VertrekVertraging" with
  | .ok v =>
    match departure_dict.getItem "VertrekVertragingTekst" with
    | .ok t => .ok (true, some v, some t)
    | .error (.keyError _) => .ok (false, some v, none)
    | .error e => .error e
  | .error (.keyError _) => .ok (false, none, none)
  | .error e => .error e

/-- Translation of `Departure.__init__`.  Lines 132-143 of the source are
chained assignments `self.train_type = departure_dict = ['TreinSoort']`
and so on: they rebind the local `departure_dict` to a fresh list
literal and store that list literal in the attribute, never reading a
field of the input element; the `try`/`except KeyError` around
`journey_tip` and `remarks` can never fire because subscripting does not
occur in those statements. -/
def Departure.init (departure_dict : Node) : Except PyError Departure := do
  let trip_number ← departure_dict.getItem "RitNummer"
  let departure_time ← departure_dict.getItem "VertrekTijd"
  let delayFields ← departureDelayFields departure_dict
  let departure_platform ← departure_dict.getItem "VertrekSpoor"
  let departure_platform_changed ← departure_platform.getItem "@wijziging"
  let destination ← departure_dict.getItem "EindBestemming"
  let route_text ← getOptKey departure_dict "RouteTekst"
  pure { trip_number, departure_time,
         has_delay := delayFields.1,
         departure_delay := delayFields.2.1,
         departure_delay_text := delayFields.2.2,
         departure_platform, departure_platform_changed,
         destination, route_text,
         train_type := PyVal.ofList ["TreinSoort"],
         carrier := PyVal.ofList ["Vervoerder"],
         journey_tip := PyVal.ofList ["ReisTip"],
         remarks := PyVal.ofList ["Opmerkingen"] }

/-- Translation of the `Departure.delay` property: the stored delay when
the flag is set, else `None`. -/
def Departure.delay (d : Departure) : Option Node :=
  if d.has_delay then d.departure_delay else none

/-- Translation of the `TripRemark` record. -/
structure TripRemark where
  id : Node
  is_grave : Bool
  text : Node

/-- Translation of `TripRemark.__init__`: `is_grave` is false exactly
when the `Ernstig` field equals the string `false`. -/
def TripRemark.init (part_dict : Node) : Except PyError TripRemark := do
  let id ← part_dict.getItem "Id"
  let ernstig ← part_dict.getItem "Ernstig"
  let is_grave := ! ernstig.eqStr "false"
  let text ← part_dict.getItem "Text"
  pure { id, is_grave, text }

/-- Translation of the `TripSubpart` record. -/
structure TripSubpart where
  trip_type : Node
  transporter : Node
  transport_type : Node
  journey_id : Node
  status : Node
  going : Bool

/-- Translation of `TripSubpart.__init__`: `going` is false exactly when
the `Status` field equals the cancellation code `GEANNULEERD`. -/
def TripSubpart.init (part_dict : Node) : Except PyError TripSubpart := do
  let trip_type ← part_dict.getItem "@reisSoort"
  let transporter ← part_dict.getItem "Vervoerder"
  let transport_type ← part_dict.getItem "VervoerType"
  let journey_id ← part_dict.getItem "RitNummer"
  let status ← part_dict.getItem "Status"
  let going := ! status.eqStr "GEANNULEERD"
  pure { trip_type, transporter, transport_type, journey_id, status, going }

/-- Python `for`-loop that builds a list by constructing a record from
each element, propagating the first exception (used by `Trip.__init__`
and the parse entry points). -/
def mapInit {α : Type} (f : Node → Except PyError α) : List Node → Except PyError (List α)
  | [] => .ok []
  | n :: ns => do
    let a ← f n
    let as ← mapInit f ns
    pure (a :: as)

/-- Translation of the `Trip` record.  The four timestamps are `none`
when the corresponding `load_datetime` call raised and the bare
`except:` stored `None`. -/
structure Trip where
  status : Node
  nr_transfers : Node
  travel_time_planned : Option Node
  going : Bool
  travel_time_actual : Node
  is_optimal : Bool
  departure_time_planned : Option PyDateTime
  departure_time_actual : Option PyDateTime
  arrival_time_planned : Option PyDateTime
  arrival_time_actual : Option PyDateTime
  trip_parts : List TripSubpart
  trip_remarks : List TripRemark

/-- Models one of the four guarded timestamp loads in `Trip.__init__`:
`try: load_datetime(trip_dict[key], dt_format) except: None`.  The bare
`except:` catches every exception (absent key, non-string value whose
slicing or `int` conversion raises, pattern mismatch), so every failure
collapses to `None`. -/
def tripTimestamp (trip_dict : Node) (key : String) : Option PyDateTime :=
  match trip_dict.getItem key with
  | .ok (.str s) => load_datetime s "%Y-%m-%dT%H:%M:%S%z"
  | _ => none

/-- Translation of the `GeplandeReisTijd` block of `Trip.__init__`
(source lines 203-209): `travel_time_planned` and `going` come from the
`try`/`except KeyError` around `GeplandeReisTijd` (the source comments
the handler with "Train has been cancelled"): present ↦ (value, True),
absent ↦ (None, False). -/
def tripPlannedAndGoing (trip_dict : Node) : Except PyError (Option Node × Bool) :=
  match trip_dict.getItem "GeplandeReisTijd" with
  | .ok v => .ok (some v, true)
  | .error (.keyError _) => .ok (none, false)
  | .error e => .error e

/-- Python 2 `isinstance(node, collections.OrderedDict)` wrap used for
`ReisDeel` and `Melding`: a lone mapping becomes a one-element list,
everything else passes through unchanged. -/
def wrapSingleDict : Node → Node
  | .dict fields => .list [.dict fields]
  | other => other

/-- Translation of the `Melding` block of `Trip.__init__` (source lines
246-255): the whole block — lookup, wrap, iteration, `TripRemark`
construction — sits inside one `try` whose `except KeyError` handler
resets `trip_remarks` to the empty list; other exceptions propagate. -/
def tripRemarksOf (trip_dict : Node) : Except PyError (List TripRemark) :=
  match (do
    let melding ← trip_dict.getItem "Melding"
    let remark_items ← (wrapSingleDict melding).pyIter
    mapInit TripRemark.init remark_items : Except PyError (List TripRemark)) with
  | .ok rs => .ok rs
  | .error (.keyError _) => .ok []
  | .error e => .error e

/-- Translation of `Trip.__init__`, statement by statement in source
order (`ReisDeel` is a required field; its lone-mapping shape is
wrapped into a one-element list before iteration and a missing key
propagates as `KeyError`). -/
def Trip.init (trip_dict : Node) : Except PyError Trip := do
  let status ← trip_dict.getItem "Status"
  let nr_transfers ← trip_dict.getItem "AantalOverstappen"
  let plannedGoing ← tripPlannedAndGoing trip_dict
  let travel_time_actual ← trip_dict.getItem "ActueleReisTijd"
  let optimaal ← trip_dict.getItem "Optimaal"
  let reis_deel ← trip_dict.getItem "ReisDeel"
  let part_items ← (wrapSingleDict reis_deel).pyIter
  let trip_parts ← mapInit TripSubpart.init part_items
  let trip_remarks ← tripRemarksOf trip_dict
  pure { status, nr_transfers,
         travel_time_planned := plannedGoing.1, going := plannedGoing.2,
         travel_time_actual,
         is_optimal := optimaal.eqStr "true",
         departure_time_planned := tripTimestamp trip_dict "GeplandeVertrekTijd",
         departure_time_actual := tripTimestamp trip_dict "ActueleVertrekTijd",
         arrival_time_planned := tripTimestamp trip_dict "GeplandeAankomstTijd",
         arrival_time_actual := tripTimestamp trip_dict "ActueleAankomstTijd",
         trip_parts, trip_remarks }

/-- Days since 1970-01-01 of a proleptic Gregorian date (the standard
civil-from-days inverse), used to compare and subtract datetimes. -/
def daysFromCivil (y m d : Int) : Int :=
  let y' := if m ≤ 2 then y - 1 else y
  let era := (if y' ≥ 0 then y' else y' - 399) / 400
  let yoe := y' - era * 400
  let mp := if m > 2 then m - 3 else m + 9
  let doy := (153 * mp + 2) / 5 + d - 1
  let doe := yoe * 365 + yoe / 4 - yoe / 100 + doy
  era * 146097 + doe - 719468

/-- Instant of an aware datetime in seconds (UTC), the quantity Python
compares and subtracts for timezone-aware datetimes. -/
def PyDateTime.utcSeconds (dt : PyDateTime) : Int :=
  daysFromCivil dt.year dt.month dt.day * 86400 +
    dt.hour * 3600 + dt.minute * 60 + dt.second -
    60 * (dt.tzinfo.getD 0)

/-- Python 2 evaluation of `a > b` on the optional datetime attributes:
`None > None` is `False`; an ordering comparison between a `datetime`
and `None` raises `TypeError` (in either operand order); two aware
datetimes compare by instant. -/
def pyGtOptDatetime : Option PyDateTime → Option PyDateTime → Except PyError Bool
  | none, none => .ok false
  | some _, none => .error (.typeError "cannot compare datetime.datetime to NoneType")
  | none, some _ => .error (.typeError "cannot compare datetime.datetime to NoneType")
  | some a, some b =>
    match a.tzinfo, b.tzinfo with
    | some _, some _ => .ok (a.utcSeconds > b.utcSeconds)
    | none, none => .ok (a.utcSeconds > b.utcSeconds)
    | _, _ => .error (.typeError "cannot compare offset-naive and offset-aware datetimes")

/-- Translation of the `Trip.delay` property: it evaluates
`self.departure_time_actual > self.departure_time_planned` with no
absence check and returns the difference (as a `timedelta`, modelled in
seconds) when the comparison is true, else `None`.  Exceptions of the
comparison propagate to the caller. -/
def Trip.delay (t : Trip) : Except PyError (Option Int) := do
  let gt ← pyGtOptDatetime t.departure_time_actual t.departure_time_planned
  if gt then
    match t.departure_time_actual, t.departure_time_planned with
    | some a, some p => pure (some (a.utcSeconds - p.utcSeconds))
    | _, _ => throw (.typeError "unsupported operand types for -")
  else
    pure none

/-- JSON image of a `PyVal` attribute under `json.dumps` (a Python list
of strings becomes an array of strings). -/
def PyVal.toJVal : PyVal → JVal
  | .ofNode n => nodeToJVal n
  | .ofList items => .jarr (items.map JVal.jstr)

/-- Translation of `BaseObject.to_json` for a `TripSubpart`:
`json.dumps` of its attribute dictionary, in attribute order. -/
def TripSubpart.to_json (p : TripSubpart) : String :=
  renderJVal (.jobj [("trip_type", nodeToJVal p.trip_type),
                     ("transporter", nodeToJVal p.transporter),
                     ("transport_type", nodeToJVal p.transport_type),
                     ("journey_id", nodeToJVal p.journey_id),
                     ("status", nodeToJVal p.status),
                     ("going", .jbool p.going)])

/-- Translation of `BaseObject.to_json` for a `TripRemark`:
`json.dumps` of its attribute dictionary, in attribute order. -/
def TripRemark.to_json (r : TripRemark) : String :=
  renderJVal (.jobj [("id", nodeToJVal r.id),
                     ("is_grave", .jbool r.is_grave),
                     ("text", nodeToJVal r.text)])

/-- Python `value.isoformat()` on an optional datetime attribute:
`None.isoformat()` raises `AttributeError`. -/
def isoformatOpt : Option PyDateTime → Except PyError String
  | some dt => .ok dt.isoformat
  | none => .error (.attributeError "NoneType object has no attribute isoformat")

/-- Translation of `Trip.__getstate__`: a copy of the attribute
dictionary (attribute insertion order) in which the four timestamps are
replaced by `isoformat()` strings — unconditionally, in the source's
call order (`departure_time_actual`, `arrival_time_actual`,
`departure_time_planned`, `arrival_time_planned`), so an absent
timestamp raises `AttributeError` — and each `trip_parts` /
`trip_remarks` child is replaced by its own `to_json()` STRING. -/
def Trip.getstate (t : Trip) : Except PyError (List (String × JVal)) := do
  let dta ← isoformatOpt t.departure_time_actual
  let ata ← isoformatOpt t.arrival_time_actual
  let dtp ← isoformatOpt t.departure_time_planned
  let atp ← isoformatOpt t.arrival_time_planned
  pure [("status", nodeToJVal t.status),
        ("nr_transfers", nodeToJVal t.nr_transfers),
        ("travel_time_planned", optNodeToJVal t.travel_time_planned),
        ("going", .jbool t.going),
        ("travel_time_actual", nodeToJVal t.travel_time_actual),
        ("is_optimal", .jbool t.is_optimal),
        ("departure_time_planned", .jstr dtp),
        ("departure_time_actual", .jstr dta),
        ("arrival_time_planned", .jstr atp),
        ("arrival_time_actual", .jstr ata),
        ("trip_parts", .jarr (t.trip_parts.map (fun p => JVal.jstr p.to_json))),
        ("trip_remarks", .jarr (t.trip_remarks.map (fun r => JVal.jstr r.to_json)))]

/-- Translation of `Trip.to_json`: `json.dumps(self.__getstate__())`. -/
def Trip.to_json (t : Trip) : Except PyError String :=
  (t.getstate).map (fun st => renderJVal (.jobj st))

/-! ## Parse entry points

The entry points of the source take the raw XML text and first run
`xmltodict.parse` (an external library: well-formed XML decodes to a
tree, malformed XML raises `ExpatError`).  The decoding step is
modelled by taking the already decoded tree as input, so these
functions quantify over "every well-formed XML input" via its decoded
`Node`.  The `print` statements of the source are side effects; the
ones that can raise (`newtrip.to_json()`, `newtrip.delay`) are
evaluated in source order, the always-total ones are dropped. -/

/-- Translation of the body of `NSAPI.parse_departures` (lines 334-351):
locate `ActueleVertrekTijden` → `VertrekkendeTrein`, build a
`Departure` per iterated element, and RETURN the list.  The `print`
calls in the loop (`newdep.__dict__`, `newdep.to_json()`,
`newdep.delay`) are total for every constructed `Departure` — its
attribute dictionary contains only decoded nodes, booleans and string
lists — and are dropped as side effects. -/
def parse_departures (obj : Node) : Except PyError (List Departure) := do
  let actuele ← obj.getItem "ActueleVertrekTijden"
  let vertrekkende ← actuele.getItem "VertrekkendeTrein"
  let items ← vertrekkende.pyIter
  mapInit Departure.init items

/-- Translation of the body of `NSAPI.parse_trips` (lines 375-391):
locate `ReisMogelijkheden` → `ReisMogelijkheid`, build a `Trip` per
iterated element, evaluate the fallible prints (`newtrip.to_json()`
and `newtrip.delay`), and fall off the end WITHOUT a return statement:
the Python function returns `None`, never the accumulated list. -/
def parse_trips (obj : Node) : Except PyError (Option (List Trip)) := do
  let reismogelijkheden ← obj.getItem "ReisMogelijkheden"
  let mogelijkheid ← reismogelijkheden.getItem "ReisMogelijkheid"
  let items ← mogelijkheid.pyIter
  let _ ← mapInit (fun trip => do
      let newtrip ← Trip.init trip
      let _ ← newtrip.to_json
      let _ ← newtrip.delay
      pure newtrip) items
  pure none

/-- Translation of the body of `NSAPI.parse_stations` (lines 402-412):
locate `Stations` → `Station`, build a `Station` per iterated element,
and fall off the end WITHOUT a return statement: the Python function
returns `None`, never the accumulated list.  The prints are total for
every constructed `Station` and are dropped as side effects. -/
def parse_stations (obj : Node) : Except PyError (Option (List Station)) := do
  let stationsNode ← obj.getItem "Stations"
  let stationList ← stationsNode.getItem "Station"
  let items ← stationList.pyIter
  let _ ← mapInit Station.init items
  pure none

/-! ## Concrete fixtures (decoded forms of canned XML documents) -/

/-- Departure element carrying a delay (decoded form of a
`VertrekkendeTrein` element with `VertrekVertraging`). -/
def departureElemWithDelayFields : List (String × Node) :=
  [("RitNummer", .str "1976"),
         ("VertrekTijd", .str "2014-04-19T20:21:00+0200"),
         ("VertrekVertraging", .str "PT5M"),
         ("VertrekVertragingTekst", .str "+5 min"),
         ("VertrekSpoor", .dict [("@wijziging", .str "true"), ("#text", .str "7")]),
         ("EindBestemming", .str "Rotterdam Centraal"),
         ("TreinSoort", .str "Intercity"),
         ("Vervoerder", .str "NS")]

/-- Dictionary node of `departureElemWithDelayFields`. -/
def departureElemWithDelay : Node := .dict departureElemWithDelayFields

/-- Departure element without a delay field. -/
def departureElemWithoutDelay : Node :=
  .dict [("RitNummer", .str "1978"),
         ("VertrekTijd", .str "2014-04-19T20:51:00+0200"),
         ("VertrekSpoor", .dict [("@wijziging", .str "false"), ("#text", .str "4")]),
         ("EindBestemming", .str "Den Haag Centraal"),
         ("TreinSoort", .str "Sprinter"),
         ("Vervoerder", .str "NS"),
         ("ReisTip", .str "stopt niet in Delft")]

/-- Decoded departures document with two `VertrekkendeTrein` elements,
the first with a delay field and the second without. -/
def departuresDoc : Node :=
  .dict [("ActueleVertrekTijden",
          .dict [("VertrekkendeTrein",
                  .list [departureElemWithDelay, departureElemWithoutDelay])])]

/-- Departure element whose `VertrekVertraging` is present but whose
`VertrekVertragingTekst` is absent. -/
def departureElemDelayNoTextFields : List (String × Node) :=
  [("RitNummer", .str "1980"),
         ("VertrekTijd", .str "2014-04-19T21:21:00+0200"),
         ("VertrekVertraging", .str "PT5M"),
         ("VertrekSpoor", .dict [("@wijziging", .str "false"), ("#text", .str "2")]),
         ("EindBestemming", .str "Utrecht Centraal"),
         ("TreinSoort", .str "Intercity"),
         ("Vervoerder", .str "NS")]

/-- Dictionary node of `departureElemDelayNoTextFields`. -/
def departureElemDelayNoText : Node := .dict departureElemDelayNoTextFields

/-- Trip subpart element (a `ReisDeel` child). -/
def subpartElemFields : List (String × Node) :=
  [("@reisSoort", .str "TRAIN"),
         ("Vervoerder", .str "NS"),
         ("VervoerType", .str "Intercity"),
         ("RitNummer", .str "567"),
         ("Status", .str "VOLGENS-PLAN")]

/-- Dictionary node of `subpartElemFields`. -/
def subpartElem : Node := .dict subpartElemFields

/-- Fully populated trip element: all four timestamps present and
well-formed, a single `ReisDeel` mapping, one `Melding`. -/
def tripElemFull : Node :=
  .dict [("Status", .str "VOLGENS-PLAN"),
         ("AantalOverstappen", .str "0"),
         ("GeplandeReisTijd", .str "0:39"),
         ("ActueleReisTijd", .str "0:44"),
         ("Optimaal", .str "true"),
         ("GeplandeVertrekTijd", .str "2014-04-19T20:21:00+0200"),
         ("ActueleVertrekTijd", .str "2014-04-19T20:26:00+0200"),
         ("GeplandeAankomstTijd", .str "2014-04-19T21:00:00+0200"),
         ("ActueleAankomstTijd", .str "2014-04-19T21:05:00+0200"),
         ("ReisDeel", subpartElem),
         ("Melding", .dict [("Id", .str "m1"), ("Ernstig", .str "false"),
                            ("Text", .str "Geen extra treinen")])]

/-- Fully populated trip element without a `Melding` and with a single
`ReisDeel` mapping. -/
def tripElemNoMeldingFields : List (String × Node) :=
  [("Status", .str "VOLGENS-PLAN"),
         ("AantalOverstappen", .str "1"),
         ("GeplandeReisTijd", .str "0:50"),
         ("ActueleReisTijd", .str "0:50"),
         ("Optimaal", .str "false"),
         ("GeplandeVertrekTijd", .str "2014-04-19T20:51:00+0200"),
         ("ActueleVertrekTijd", .str "2014-04-19T20:51:00+0200"),
         ("GeplandeAankomstTijd", .str "2014-04-19T21:41:00+0200"),
         ("ActueleAankomstTijd", .str "2014-04-19T21:41:00+0200"),
         ("ReisDeel", subpartElem)]

/-- Dictionary node of `tripElemNoMeldingFields`. -/
def tripElemNoMelding : Node := .dict tripElemNoMeldingFields

/-- Decoded trips document with two `ReisMogelijkheid` elements. -/
def tripsDoc : Node :=
  .dict [("ReisMogelijkheden",
          .dict [("ReisMogelijkheid", .list [tripElemFull, tripElemNoMelding])])]

/-- Trip element whose `GeplandeVertrekTijd` is absent while its
`ActueleVertrekTijd` parses: the constructed record has an absent
planned departure and a present actual departure. -/
def tripElemNoPlannedDeparture : Node :=
  .dict [("Status", .str "GEWIJZIGD"),
         ("AantalOverstappen", .str "0"),
         ("GeplandeReisTijd", .str "0:39"),
         ("ActueleReisTijd", .str "0:39"),
         ("Optimaal", .str "true"),
         ("ActueleVertrekTijd", .str "2014-04-19T20:26:00+0200"),
         ("ReisDeel", subpartElem)]

/-- Trip element whose status is the cancellation code while the
`GeplandeReisTijd` field is nonetheless present. -/
def tripElemCancelledStatusFields : List (String × Node) :=
  [("Status", .str "GEANNULEERD"),
         ("AantalOverstappen", .str "0"),
         ("GeplandeReisTijd", .str "0:39"),
         ("ActueleReisTijd", .str "0:39"),
         ("Optimaal", .str "false"),
         ("ReisDeel", .dict [("@reisSoort", .str "TRAIN"),
                             ("Vervoerder", .str "NS"),
                             ("VervoerType", .str "Intercity"),
                             ("RitNummer", .str "567"),
                             ("Status", .str "GEANNULEERD")])]

/-- Dictionary node of `tripElemCancelledStatusFields`. -/
def tripElemCancelledStatus : Node := .dict tripElemCancelledStatusFields

/-- Station element with all required fields and a `Synoniemen` list. -/
def stationElemFull : Node :=
  .dict [("Code", .str "HT"),
         ("UICCode", .str "8400319"),
         ("Type", .str "knooppuntIntercitystation"),
         ("Namen", .dict [("Kort", .str "Den Bosch"),
                          ("Middel", .str "s-Hertogenbosch"),
                          ("Lang", .str "s-Hertogenbosch")]),
         ("Land", .str "NL"),
         ("Lat", .str "51.69048"),
         ("Lon", .str "5.29362"),
         ("Synoniemen", .dict [("Synoniem", .list [.str "Hertogenbosch", .str "Den Bosch"])])]

/-- Station element with all required fields but no `Synoniemen` key. -/
def stationElemNoSynoniemen : Node :=
  .dict [("Code", .str "UT"),
         ("UICCode", .str "8400621"),
         ("Type", .str "knooppuntIntercitystation"),
         ("Namen", .dict [("Kort", .str "Utrecht C"),
                          ("Middel", .str "Utrecht C."),
                          ("Lang", .str "Utrecht Centraal")]),
         ("Land", .str "NL"),
         ("Lat", .str "52.089444"),
         ("Lon", .str "5.110278")]

/-- Station element whose `Synoniemen` element is empty (decoded to
`None`, the malformed shape the source's `except TypeError` handles). -/
def stationElemNullSynoniemenFields : List (String × Node) :=
  [("Code", .str "ASD"),
         ("UICCode", .str "8400058"),
         ("Type", .str "knooppuntIntercitystation"),
         ("Namen", .dict [("Kort", .str "A damC"),
                          ("Middel", .str "Amsterdam C."),
                          ("Lang", .str "Amsterdam Centraal")]),
         ("Land", .str "NL"),
         ("Lat", .str "52.378887"),
         ("Lon", .str "4.900277"),
         ("Synoniemen", .null)]

/-- Dictionary node of `stationElemNullSynoniemenFields`. -/
def stationElemNullSynoniemen : Node := .dict stationElemNullSynoniemenFields

/-- Decoded stations document with two `Station` elements. -/
def stationsDoc : Node :=
  .dict [("Stations",
          .dict [("Station", .list [stationElemFull, stationElemNullSynoniemen])])]

/-! ## Helper lemmas -/

/-- Inversion of a successful `Except` bind. -/
theorem eok_of_bind {ε α β : Type} {x : Except ε α} {f : α → Except ε β} {b : β}
    (h : x >>= f = .ok b) : ∃ a, x = .ok a ∧ f a = .ok b := by
  cases x with
  | ok a => exact ⟨a, rfl, h⟩
  | error e => exact absurd h (by simp [Bind.bind, Except.bind])

/-- A dictionary lookup that finds the key. -/
theorem getItem_dict_some {fs : List (String × Node)} {key : String} {v : Node}
    (h : fs.lookup key = some v) : (Node.dict fs).getItem key = .ok v := by
  simp [Node.getItem, h]

/-- A dictionary lookup that misses raises `KeyError`. -/
theorem getItem_dict_none {fs : List (String × Node)} {key : String}
    (h : fs.lookup key = none) : (Node.dict fs).getItem key = .error (.keyError key) := by
  simp [Node.getItem, h]

/-- An absent `Synoniemen` key makes the synonym block itself raise
`KeyError` (only `TypeError` is handled). -/
theorem stationSynonyms_absent {fs : List (String × Node)}
    (h : fs.lookup "Synoniemen" = none) :
    stationSynonyms (.dict fs) = .error (.keyError "Synoniemen") := by
  simp [stationSynonyms, Node.getItem, h, Bind.bind, Except.bind]

/-- A null `Synoniemen` node makes the synonym block yield the empty
list (the `TypeError` of subscripting `None` is caught). -/
theorem stationSynonyms_null {fs : List (String × Node)}
    (h : fs.lookup "Synoniemen" = some .null) :
    stationSynonyms (.dict fs) = .ok [] := by
  simp [stationSynonyms, Node.getItem, h, Bind.bind, Except.bind]

/-- `tripPlannedAndGoing` on a fragment carrying `GeplandeReisTijd`. -/
theorem tripPlannedAndGoing_present {fs : List (String × Node)} {v : Node}
    (h : fs.lookup "GeplandeReisTijd" = some v) :
    tripPlannedAndGoing (.dict fs) = .ok (some v, true) := by
  simp [tripPlannedAndGoing, getItem_dict_some h]

/-- `tripPlannedAndGoing` on a fragment lacking `GeplandeReisTijd`. -/
theorem tripPlannedAndGoing_absent {fs : List (String × Node)}
    (h : fs.lookup "GeplandeReisTijd" = none) :
    tripPlannedAndGoing (.dict fs) = .ok (none, false) := by
  simp [tripPlannedAndGoing, getItem_dict_none h]

/-- An absent `Melding` key makes the remark block yield the empty list. -/
theorem tripRemarksOf_absent {fs : List (String × Node)}
    (h : fs.lookup "Melding" = none) : tripRemarksOf (.dict fs) = .ok [] := by
  simp [tripRemarksOf, getItem_dict_none h, Bind.bind, Except.bind]

/-- `departureDelayFields` on an element lacking `VertrekVertraging`. -/
theorem departureDelayFields_absent {fs : List (String × Node)}
    (h : fs.lookup "VertrekVertraging" = none) :
    departureDelayFields (.dict fs) = .ok (false, none, none) := by
  simp [departureDelayFields, getItem_dict_none h]

/-- `departureDelayFields` on an element carrying both delay fields. -/
theorem departureDelayFields_present {fs : List (String × Node)} {v w : Node}
    (hv : fs.lookup "VertrekVertraging" = some v)
    (hw : fs.lookup "VertrekVertragingTekst" = some w) :
    departureDelayFields (.dict fs) = .ok (true, some v, some w) := by
  simp [departureDelayFields, getItem_dict_some hv, getItem_dict_some hw]

/-- A successful `mapInit` run produces one record per input element. -/
theorem mapInit_length {α : Type} {f : Node → Except PyError α}
    {ns : List Node} {as : List α} (h : mapInit f ns = .ok as) :
    as.length = ns.length := by
  induction ns generalizing as with
  | nil =>
    simp only [mapInit] at h
    cases h
    rfl
  | cons n ns ih =>
    simp only [mapInit] at h
    obtain ⟨a, ha, h⟩ := eok_of_bind h
    obtain ⟨as', has, h⟩ := eok_of_bind h
    simp only [pure, Except.pure, Except.ok.injEq] at h
    subst h
    simpa using ih has

/-! ## Claim theorems -/

/-- C8: `parse_timestamp` (the source's `load_datetime`) applied to
`2024-03-01T10:15:00+0530` with format `%Y-%m-%dT%H:%M:%S%z` yields a
timezone-aware instant carrying a +5:30 offset (330 minutes), and
formatting it back with the same pattern (`dump_datetime`) reproduces
the original string; the same round-trip holds for a negative offset
with a non-zero minute component (`-0630`, i.e. -390 minutes). -/
theorem claim_C8_timestamp_roundtrip :
    load_datetime "2024-03-01T10:15:00+0530" "%Y-%m-%dT%H:%M:%S%z"
      = some ⟨2024, 3, 1, 10, 15, 0, some 330⟩
    ∧ (load_datetime "2024-03-01T10:15:00+0530" "%Y-%m-%dT%H:%M:%S%z").bind
        (fun dt => dump_datetime dt "%Y-%m-%dT%H:%M:%S%z")
      = some "2024-03-01T10:15:00+0530"
    ∧ load_datetime "2024-03-01T10:15:00-0630" "%Y-%m-%dT%H:%M:%S%z"
      = some ⟨2024, 3, 1, 10, 15, 0, some (-390)⟩
    ∧ (load_datetime "2024-03-01T10:15:00-0630" "%Y-%m-%dT%H:%M:%S%z").bind
        (fun dt => dump_datetime dt "%Y-%m-%dT%H:%M:%S%z")
      = some "2024-03-01T10:15:00-0630" :=
  ⟨rfl, rfl, rfl, rfl⟩

/-- C1 (code behaviour at the failing input): on a trip element whose
`GeplandeVertrekTijd` is absent while `ActueleVertrekTijd` parses, the
constructed `Trip` has an absent planned departure and a present actual
departure, and `Trip.delay` raises `TypeError` (the Python 2 ordering
comparison between a `datetime` and `None`) instead of returning an
absent value as the claim states. -/
theorem claim_C1_delay_raises_on_absent_planned :
    (Trip.init tripElemNoPlannedDeparture).map
        (fun t => (t.departure_time_planned, t.departure_time_actual))
      = .ok (none, some ⟨2014, 4, 19, 20, 26, 0, some 120⟩)
    ∧ Trip.init tripElemNoPlannedDeparture >>= Trip.delay
      = .error (.typeError "cannot compare datetime.datetime to NoneType") :=
  ⟨rfl, rfl⟩

/-- C2 (code behaviour at the failing input): on a departure element
whose `TreinSoort` is `Intercity` and `Vervoerder` is `NS`, the
constructed record's `train_type`, `carrier`, `journey_tip` and
`remarks` are the one-element list literals from the chained
assignments of source lines 132-143, not the element's field values. -/
theorem claim_C2_fields_are_list_literals :
    (Departure.init departureElemWithDelay).map
        (fun d => (d.train_type, d.carrier, d.journey_tip, d.remarks))
      = .ok (.ofList ["TreinSoort"], .ofList ["Vervoerder"],
             .ofList ["ReisTip"], .ofList ["Opmerkingen"])
    ∧ departureElemWithDelayFields.lookup "TreinSoort" = some (.str "Intercity")
    ∧ departureElemWithDelayFields.lookup "Vervoerder" = some (.str "NS")
    ∧ PyVal.ofList ["TreinSoort"] ≠ PyVal.ofNode (.str "Intercity")
    ∧ PyVal.ofList ["Vervoerder"] ≠ PyVal.ofNode (.str "NS") := by
  refine ⟨rfl, rfl, rfl, fun h => ?_, fun h => ?_⟩ <;> cases h

/-- C3 (code behaviour at the failing input): `parse_departures` on the
canned two-departure document does return exactly two records with
`has_delay` true and false in document order, but `parse_trips` and
`parse_stations` on well-formed documents return `None` (the functions
build their record lists and fall off the end without a `return`),
not the sequence of mapped records the claim states. -/
theorem claim_C3_trips_and_stations_return_none :
    (parse_departures departuresDoc).map (fun ds => ds.map Departure.has_delay)
      = .ok [true, false]
    ∧ parse_trips tripsDoc = .ok none
    ∧ parse_stations stationsDoc = .ok none :=
  ⟨rfl, rfl, rfl⟩

/-- C4 (counterexample): a station element with every required field but
no `Synoniemen` key makes `Station.__init__` raise `KeyError` (its
handler catches only `TypeError`), refuting the claim that an absent
`Synoniemen` yields a successful construction with empty synonyms. -/
theorem claim_C4_counterexample :
    Station.init stationElemNoSynoniemen = .error (.keyError "Synoniemen") := rfl

/-- C4 (amended): a successfully constructed `Station` always has a
present `Synoniemen` key (absence makes construction fail), and when
`Synoniemen` is present but malformed (an empty element decoded to
`None`) the construction succeeds with an empty synonym sequence. -/
theorem claim_C4_amended (fs : List (String × Node)) (s : Station)
    (h : Station.init (.dict fs) = .ok s) :
    fs.lookup "Synoniemen" ≠ none
    ∧ (fs.lookup "Synoniemen" = some .null → s.synonyms = []) := by
  unfold Station.init at h
  obtain ⟨code, hc, h⟩ := eok_of_bind h
  obtain ⟨uic, hu, h⟩ := eok_of_bind h
  obtain ⟨st, hst, h⟩ := eok_of_bind h
  obtain ⟨namen, hn, h⟩ := eok_of_bind h
  obtain ⟨kort, hk, h⟩ := eok_of_bind h
  obtain ⟨middel, hm, h⟩ := eok_of_bind h
  obtain ⟨lang, hl, h⟩ := eok_of_bind h
  obtain ⟨country, hco, h⟩ := eok_of_bind h
  obtain ⟨lat, hla, h⟩ := eok_of_bind h
  obtain ⟨lon, hlo, h⟩ := eok_of_bind h
  obtain ⟨syns, hsy, h⟩ := eok_of_bind h
  simp only [pure, Except.pure, Except.ok.injEq] at h
  subst h
  cases hsl : fs.lookup "Synoniemen" with
  | none =>
    rw [stationSynonyms_absent hsl] at hsy
    exact absurd hsy (by simp)
  | some synNode =>
    refine ⟨by simp, fun hnull => ?_⟩
    injection hnull with hnull
    subst hnull
    rw [stationSynonyms_null hsl] at hsy
    injection hsy with hsy
    subst hsy
    rfl

/-- Station value constructed from `stationElemNullSynoniemen`. -/
def stationFromNullSynoniemen : Station :=
  { code := .str "ASD", uic_code := .str "8400058",
    stationtype := .str "knooppuntIntercitystation",
    names := [("short", .str "A damC"), ("middle", .str "Amsterdam C."),
              ("long", .str "Amsterdam Centraal")],
    country := .str "NL", lat := .str "52.378887", lon := .str "4.900277",
    synonyms := [] }

/-- C4 (witness): the amended statement instantiated at the concrete
station element whose `Synoniemen` decoded to `None`. -/
theorem claim_C4_witness :
    stationElemNullSynoniemenFields.lookup "Synoniemen" ≠ none
    ∧ (stationElemNullSynoniemenFields.lookup "Synoniemen" = some .null →
        stationFromNullSynoniemen.synonyms = []) :=
  claim_C4_amended stationElemNullSynoniemenFields stationFromNullSynoniemen rfl

/-- C5 (counterexample): a trip fragment whose `Status` is the
cancellation code `GEANNULEERD` but whose `GeplandeReisTijd` field is
present constructs with `going = true` and a PRESENT planned travel
time, refuting the claim that a cancellation status forces
`going = false` and an absent `travel_time_planned`. -/
theorem claim_C5_counterexample :
    (Trip.init tripElemCancelledStatus).map
        (fun t => (t.status, t.going, t.travel_time_planned))
      = .ok (.str "GEANNULEERD", true, some (.str "0:39")) := rfl

/-- C5 (amended): for every successfully constructed `Trip`,
`going = false` together with an absent `travel_time_planned` holds
exactly when the fragment lacks the `GeplandeReisTijd` field; the
`Status` field is never consulted for `going`. -/
theorem claim_C5_amended (fs : List (String × Node)) (t : Trip)
    (h : Trip.init (.dict fs) = .ok t) :
    (t.going = false ∧ t.travel_time_planned = none)
      ↔ fs.lookup "GeplandeReisTijd" = none := by
  unfold Trip.init at h
  obtain ⟨status, h1, h⟩ := eok_of_bind h
  obtain ⟨nr, h2, h⟩ := eok_of_bind h
  obtain ⟨pg, h3, h⟩ := eok_of_bind h
  obtain ⟨tta, h4, h⟩ := eok_of_bind h
  obtain ⟨opt, h5, h⟩ := eok_of_bind h
  obtain ⟨rd, h6, h⟩ := eok_of_bind h
  obtain ⟨items, h7, h⟩ := eok_of_bind h
  obtain ⟨parts, h8, h⟩ := eok_of_bind h
  obtain ⟨remarks, h9, h⟩ := eok_of_bind h
  simp only [pure, Except.pure, Except.ok.injEq] at h
  subst h
  cases hl : fs.lookup "GeplandeReisTijd" with
  | none =>
    rw [tripPlannedAndGoing_absent hl] at h3
    injection h3 with h3
    subst h3
    simp
  | some v =>
    rw [tripPlannedAndGoing_present hl] at h3
    injection h3 with h3
    subst h3
    simp

/-- Trip value constructed from `tripElemCancelledStatus`. -/
def tripFromCancelledStatus : Trip :=
  { status := .str "GEANNULEERD", nr_transfers := .str "0",
    travel_time_planned := some (.str "0:39"), going := true,
    travel_time_actual := .str "0:39", is_optimal := false,
    departure_time_planned := none, departure_time_actual := none,
    arrival_time_planned := none, arrival_time_actual := none,
    trip_parts := [{ trip_type := .str "TRAIN", transporter := .str "NS",
                     transport_type := .str "Intercity", journey_id := .str "567",
                     status := .str "GEANNULEERD", going := false }],
    trip_remarks := [] }

/-- C5 (witness): the amended statement instantiated at the concrete
cancelled-status fragment whose `GeplandeReisTijd` is present. -/
theorem claim_C5_witness :
    (tripFromCancelledStatus.going = false
      ∧ tripFromCancelledStatus.travel_time_planned = none)
      ↔ tripElemCancelledStatusFields.lookup "GeplandeReisTijd" = none :=
  claim_C5_amended tripElemCancelledStatusFields tripFromCancelledStatus rfl

/-- C6: `parse_trips` on any well-formed document whose decoded root
dictionary lacks the `ReisMogelijkheden` path fails with the
missing-root-path error (`KeyError` naming the expected root path, the
code's realization of `UnexpectedSchema`), which is distinct from the
decode error raised on malformed XML (`ExpatError`). -/
theorem claim_C6_unexpected_schema (fs : List (String × Node))
    (h : fs.lookup "ReisMogelijkheden" = none) :
    parse_trips (.dict fs) = .error (.keyError "ReisMogelijkheden")
    ∧ PyError.keyError "ReisMogelijkheden" ≠ PyError.expatError := by
  refine ⟨?_, by decide⟩
  unfold parse_trips
  rw [getItem_dict_none h]
  rfl

/-- C6 (witness): the schema-mismatch statement instantiated at a
concrete fault document. -/
theorem claim_C6_witness :
    parse_trips (.dict [("foutmelding", .str "Onbekende fout")])
      = .error (.keyError "ReisMogelijkheden")
    ∧ PyError.keyError "ReisMogelijkheden" ≠ PyError.expatError :=
  claim_C6_unexpected_schema [("foutmelding", .str "Onbekende fout")] rfl

/-- C7 (counterexample): a departure element whose `VertrekVertraging`
is present (value `PT5M`) but whose `VertrekVertragingTekst` is absent
constructs with `has_delay = false` and `delay = none`, refuting the
claim that a present `VertrekVertraging` makes `delay` return the
parsed delay value. -/
theorem claim_C7_counterexample :
    (Departure.init departureElemDelayNoText).map
        (fun d => (d.has_delay, d.departure_delay, d.delay))
      = .ok (false, some (.str "PT5M"), none)
    ∧ departureElemDelayNoTextFields.lookup "VertrekVertraging" = some (.str "PT5M")
    ∧ (none : Option Node) ≠ some (.str "PT5M") := by
  refine ⟨rfl, rfl, fun h => ?_⟩
  cases h

/-- C7 (amended): for every successfully constructed `Departure`, an
absent `VertrekVertraging` yields `has_delay = false` and an absent
`delay`; when BOTH `VertrekVertraging` and `VertrekVertragingTekst` are
present, `has_delay = true` and `delay` returns the decoded
`VertrekVertraging` value. -/
theorem claim_C7_amended (fs : List (String × Node)) (d : Departure)
    (h : Departure.init (.dict fs) = .ok d) :
    (fs.lookup "VertrekVertraging" = none → d.has_delay = false ∧ d.delay = none)
    ∧ (∀ v w, fs.lookup "VertrekVertraging" = some v →
        fs.lookup "VertrekVertragingTekst" = some w →
        d.has_delay = true ∧ d.delay = some v) := by
  unfold Departure.init at h
  obtain ⟨tn, h1, h⟩ := eok_of_bind h
  obtain ⟨dtm, h2, h⟩ := eok_of_bind h
  obtain ⟨df, h3, h⟩ := eok_of_bind h
  obtain ⟨plat, h4, h⟩ := eok_of_bind h
  obtain ⟨pc, h5, h⟩ := eok_of_bind h
  obtain ⟨dest, h6, h⟩ := eok_of_bind h
  obtain ⟨rt, h7, h⟩ := eok_of_bind h
  simp only [pure, Except.pure, Except.ok.injEq] at h
  subst h
  constructor
  · intro hab
    rw [departureDelayFields_absent hab] at h3
    injection h3 with h3
    subst h3
    exact ⟨rfl, rfl⟩
  · intro v w hv hw
    rw [departureDelayFields_present hv hw] at h3
    injection h3 with h3
    subst h3
    exact ⟨rfl, rfl⟩

/-- Departure value constructed from `departureElemWithDelay`. -/
def departureFromWithDelay : Departure :=
  { trip_number := .str "1976", departure_time := .str "2014-04-19T20:21:00+0200",
    has_delay := true, departure_delay := some (.str "PT5M"),
    departure_delay_text := some (.str "+5 min"),
    departure_platform := .dict [("@wijziging", .str "true"), ("#text", .str "7")],
    departure_platform_changed := .str "true",
    destination := .str "Rotterdam Centraal", route_text := none,
    train_type := .ofList ["TreinSoort"], carrier := .ofList ["Vervoerder"],
    journey_tip := .ofList ["ReisTip"], remarks := .ofList ["Opmerkingen"] }

/-- C7 (witness): the amended statement instantiated at the concrete
element carrying both delay fields. -/
theorem claim_C7_witness :
    departureFromWithDelay.has_delay = true
    ∧ departureFromWithDelay.delay = some (.str "PT5M") :=
  (claim_C7_amended departureElemWithDelayFields departureFromWithDelay rfl).2
    (.str "PT5M") (.str "+5 min") rfl rfl

/-- C9: for every successfully constructed `Trip`, the single-vs-list
normalization behaves as specified: a `ReisDeel` that is a single
mapping yields a one-element `trip_parts`, a `ReisDeel` that is already
a sequence passes through (one part per element), and an absent
`Melding` yields an empty `trip_remarks` sequence. -/
theorem claim_C9_normalization (fs : List (String × Node)) (t : Trip)
    (h : Trip.init (.dict fs) = .ok t) :
    (∀ gs, fs.lookup "ReisDeel" = some (.dict gs) → t.trip_parts.length = 1)
    ∧ (∀ xs, fs.lookup "ReisDeel" = some (.list xs) →
        t.trip_parts.length = xs.length)
    ∧ (fs.lookup "Melding" = none → t.trip_remarks = []) := by
  unfold Trip.init at h
  obtain ⟨status, h1, h⟩ := eok_of_bind h
  obtain ⟨nr, h2, h⟩ := eok_of_bind h
  obtain ⟨pg, h3, h⟩ := eok_of_bind h
  obtain ⟨tta, h4, h⟩ := eok_of_bind h
  obtain ⟨opt, h5, h⟩ := eok_of_bind h
  obtain ⟨rd, h6, h⟩ := eok_of_bind h
  obtain ⟨items, h7, h⟩ := eok_of_bind h
  obtain ⟨parts, h8, h⟩ := eok_of_bind h
  obtain ⟨remarks, h9, h⟩ := eok_of_bind h
  simp only [pure, Except.pure, Except.ok.injEq] at h
  subst h
  refine ⟨fun gs hgs => ?_, fun xs hxs => ?_, fun hm => ?_⟩
  · rw [getItem_dict_some hgs] at h6
    injection h6 with h6
    subst h6
    simp only [wrapSingleDict, Node.pyIter, Except.ok.injEq] at h7
    subst h7
    simpa using mapInit_length h8
  · rw [getItem_dict_some hxs] at h6
    injection h6 with h6
    subst h6
    simp only [wrapSingleDict, Node.pyIter, Except.ok.injEq] at h7
    subst h7
    simpa using mapInit_length h8
  · rw [tripRemarksOf_absent hm] at h9
    injection h9 with h9
    subst h9
    rfl

/-- Trip subpart of the C9 witness fixture. -/
def subpartFromElem : TripSubpart :=
  { trip_type := .str "TRAIN", transporter := .str "NS",
    transport_type := .str "Intercity", journey_id := .str "567",
    status := .str "VOLGENS-PLAN", going := true }

/-- Trip value constructed from `tripElemNoMelding`. -/
def tripFromNoMelding : Trip :=
  { status := .str "VOLGENS-PLAN", nr_transfers := .str "1",
    travel_time_planned := some (.str "0:50"), going := true,
    travel_time_actual := .str "0:50", is_optimal := false,
    departure_time_planned := some ⟨2014, 4, 19, 20, 51, 0, some 120⟩,
    departure_time_actual := some ⟨2014, 4, 19, 20, 51, 0, some 120⟩,
    arrival_time_planned := some ⟨2014, 4, 19, 21, 41, 0, some 120⟩,
    arrival_time_actual := some ⟨2014, 4, 19, 21, 41, 0, some 120⟩,
    trip_parts := [subpartFromElem],
    trip_remarks := [] }

/-- C9 (witness): the normalization statement instantiated at the
concrete trip element with a lone `ReisDeel` mapping and no `Melding`. -/
theorem claim_C9_witness :
    tripFromNoMelding.trip_parts.length = 1 ∧ tripFromNoMelding.trip_remarks = [] :=
  ⟨(claim_C9_normalization tripElemNoMeldingFields tripFromNoMelding rfl).1
      subpartElemFields rfl,
   (claim_C9_normalization tripElemNoMeldingFields tripFromNoMelding rfl).2.2 rfl⟩

/-- The attribute state produced by `Trip.__getstate__` when all four
timestamps are present (`a` actual departure, `b` actual arrival, `c`
planned departure, `dv` planned arrival): the four timestamps are
replaced by their `isoformat` strings, and every child subpart / remark
is embedded as its own JSON STRING. -/
def tripStateList (t : Trip) (a b c dv : PyDateTime) : List (String × JVal) :=
  [("status", nodeToJVal t.status),
   ("nr_transfers", nodeToJVal t.nr_transfers),
   ("travel_time_planned", optNodeToJVal t.travel_time_planned),
   ("going", .jbool t.going),
   ("travel_time_actual", nodeToJVal t.travel_time_actual),
   ("is_optimal", .jbool t.is_optimal),
   ("departure_time_planned", .jstr c.isoformat),
   ("departure_time_actual", .jstr a.isoformat),
   ("arrival_time_planned", .jstr dv.isoformat),
   ("arrival_time_actual", .jstr b.isoformat),
   ("trip_parts", .jarr (t.trip_parts.map (fun p => JVal.jstr p.to_json))),
   ("trip_remarks", .jarr (t.trip_remarks.map (fun r => JVal.jstr r.to_json)))]

/-- C10: for every `Trip` with any of the four timestamps absent,
`to_json` fails with the `AttributeError` of calling `isoformat()` on
`None` rather than producing a JSON string; for every `Trip` with all
four timestamps present, `to_json` succeeds and the serialized state
embeds each child `TripSubpart` and `TripRemark` as its own JSON string
value (a `jstr` holding the child's `to_json` output), not as a nested
JSON object. -/
theorem claim_C10_to_json (t : Trip) :
    ((t.departure_time_actual = none ∨ t.arrival_time_actual = none ∨
      t.departure_time_planned = none ∨ t.arrival_time_planned = none) →
      t.to_json = .error (.attributeError "NoneType object has no attribute isoformat"))
    ∧ (∀ a b c dv, t.departure_time_actual = some a → t.arrival_time_actual = some b →
        t.departure_time_planned = some c → t.arrival_time_planned = some dv →
        t.getstate = .ok (tripStateList t a b c dv)
        ∧ (tripStateList t a b c dv).lookup "trip_parts"
            = some (.jarr (t.trip_parts.map (fun p => JVal.jstr p.to_json)))
        ∧ (tripStateList t a b c dv).lookup "trip_remarks"
            = some (.jarr (t.trip_remarks.map (fun r => JVal.jstr r.to_json)))
        ∧ t.to_json = .ok (renderJVal (.jobj (tripStateList t a b c dv)))) := by
  constructor
  · intro habs
    rcases hA : t.departure_time_actual with _ | a
    · simp [Trip.to_json, Trip.getstate, isoformatOpt, hA, Bind.bind, Except.bind, Except.map]
    · rcases hB : t.arrival_time_actual with _ | b
      · simp [Trip.to_json, Trip.getstate, isoformatOpt, hA, hB, Bind.bind, Except.bind,
          Except.map]
      · rcases hC : t.departure_time_planned with _ | c
        · simp [Trip.to_json, Trip.getstate, isoformatOpt, hA, hB, hC, Bind.bind,
            Except.bind, Except.map]
        · rcases hD : t.arrival_time_planned with _ | dv
          · simp [Trip.to_json, Trip.getstate, isoformatOpt, hA, hB, hC, hD, Bind.bind,
              Except.bind, Except.map]
          · rcases habs with h | h | h | h <;> simp_all
  · intro a b c dv ha hb hc hd
    refine ⟨?_, rfl, rfl, ?_⟩
    · simp [Trip.getstate, isoformatOpt, ha, hb, hc, hd, tripStateList, Bind.bind,
        Except.bind, pure, Except.pure]
    · simp [Trip.to_json, Trip.getstate, isoformatOpt, ha, hb, hc, hd, tripStateList,
        Bind.bind, Except.bind, Except.map, pure, Except.pure]

/-- Fully populated trip record for the C10 witness. -/
def tripAllTimestamps : Trip :=
  { status := .str "VERTRAAGD", nr_transfers := .str "0",
    travel_time_planned := some (.str "0:39"), going := true,
    travel_time_actual := .str "0:44", is_optimal := true,
    departure_time_planned := some ⟨2014, 4, 19, 20, 21, 0, some 120⟩,
    departure_time_actual := some ⟨2014, 4, 19, 20, 26, 0, some 120⟩,
    arrival_time_planned := some ⟨2014, 4, 19, 21, 0, 0, some 120⟩,
    arrival_time_actual := some ⟨2014, 4, 19, 21, 5, 0, some 120⟩,
    trip_parts := [{ trip_type := .str "TRAIN", transporter := .str "NS",
                     transport_type := .str "Intercity", journey_id := .str "1976",
                     status := .str "VERTRAAGD", going := true }],
    trip_remarks := [{ id := .str "m2", is_grave := true,
                       text := .str "Wegwerkzaamheden" }] }

/-- The same trip record with its planned arrival timestamp absent. -/
def tripMissingArrivalPlanned : Trip :=
  { tripAllTimestamps with arrival_time_planned := none }

/-- C10 (witness): the serialization statement instantiated at the
concrete trip records (one timestamp absent: `to_json` fails; all four
present: `getstate` succeeds with string-embedded children). -/
theorem claim_C10_witness :
    tripMissingArrivalPlanned.to_json
      = .error (.attributeError "NoneType object has no attribute isoformat")
    ∧ (tripAllTimestamps.getstate
        = .ok (tripStateList tripAllTimestamps ⟨2014, 4, 19, 20, 26, 0, some 120⟩
            ⟨2014, 4, 19, 21, 5, 0, some 120⟩ ⟨2014, 4, 19, 20, 21, 0, some 120⟩
            ⟨2014, 4, 19, 21, 0, 0, some 120⟩)
       ∧ (tripStateList tripAllTimestamps ⟨2014, 4, 19, 20, 26, 0, some 120⟩
            ⟨2014, 4, 19, 21, 5, 0, some 120⟩ ⟨2014, 4, 19, 20, 21, 0, some 120⟩
            ⟨2014, 4, 19, 21, 0, 0, some 120⟩).lookup "trip_parts"
          = some (.jarr (tripAllTimestamps.trip_parts.map (fun p => JVal.jstr p.to_json)))
       ∧ (tripStateList tripAllTimestamps ⟨2014, 4, 19, 20, 26, 0, some 120⟩
            ⟨2014, 4, 19, 21, 5, 0, some 120⟩ ⟨2014, 4, 19, 20, 21, 0, some 120⟩
            ⟨2014, 4, 19, 21, 0, 0, some 120⟩).lookup "trip_remarks"
          = some (.jarr (tripAllTimestamps.trip_remarks.map (fun r => JVal.jstr r.to_json)))
       ∧ tripAllTimestamps.to_json
          = .ok (renderJVal (.jobj (tripStateList tripAllTimestamps
              ⟨2014, 4, 19, 20, 26, 0, some 120⟩ ⟨2014, 4, 19, 21, 5, 0, some 120⟩
              ⟨2014, 4, 19, 20, 21, 0, some 120⟩ ⟨2014, 4, 19, 21, 0, 0, some 120⟩)))) :=
  ⟨(claim_C10_to_json tripMissingArrivalPlanned).1 (Or.inr (Or.inr (Or.inr rfl))),
   (claim_C10_to_json tripAllTimestamps).2
     ⟨2014, 4, 19, 20, 26, 0, some 120⟩ ⟨2014, 4, 19, 21, 5, 0, some 120⟩
     ⟨2014, 4, 19, 20, 21, 0, some 120⟩ ⟨2014, 4, 19, 21, 0, 0, some 120⟩
     rfl rfl rfl rfl⟩
